import Mathlib

/-!
Shallow embedding of the state-keyed OAuth hand-off protocol of this
repository: the in-memory session store, the `start` / `callback` / `status`
HTTP handlers of `server/index.js`, the periodic TTL sweep, and the
client-side poll controller of the React app, together with proofs of the
spec claims.

Timestamps are `Nat` milliseconds (`Date.now()`); the outbound provider
calls (code exchange and id-token verification) are passed in as explicit
outcome oracles, mirroring the `axios` calls whose results the handler
consumes.
-/

namespace GoogleSSO

/-- The TTL constant `AUTH_TTL_MS = 5 * 60 * 1000` from `server/index.js`. -/
def AUTH_TTL_MS : Nat := 5 * 60 * 1000

/-- The sweep interval of the `setInterval` cleanup tick, `60 * 1000` ms. -/
def SWEEP_INTERVAL_MS : Nat := 60 * 1000

/-- Identity claims derived from a verified id token (the `user` object built
in the callback handler). -/
structure GoogleUser where
  sub : String
  email : String
  email_verified : Bool
  name : String
  picture : String
  given_name : String
  family_name : String
deriving DecidableEq, Repr

/-- A session record stored in `authStore`, in one of the three shapes the
server actually writes: the pending record from `start`, the error record
from the failure paths of `callback`, and the complete record from the
success path. Token fields are optional because the provider response may
omit them. -/
inductive Entry where
  | pending (createdAt : Nat)
  | error (error : String) (createdAt : Nat)
  | complete (createdAt : Nat) (access_token refresh_token id_token : Option String)
      (expires_in : Option Nat) (user : Option GoogleUser)
deriving DecidableEq, Repr

/-- The `createdAt` field every record shape carries (read by the sweep). -/
def Entry.createdAt : Entry → Nat
  | .pending c => c
  | .error _ c => c
  | .complete c _ _ _ _ _ => c

/-- A record is terminal when its status is `complete` or `error`. -/
def Entry.isTerminal : Entry → Bool
  | .pending _ => false
  | .error _ _ => true
  | .complete _ _ _ _ _ _ => true

/-- The `authStore` map from state token to record, modelled extensionally. -/
def AuthStore : Type := String → Option Entry

/-- The empty store. -/
def AuthStore.empty : AuthStore := fun _ => none

/-- The write `authStore.set(state, entry)` — replaces any previous record. -/
def AuthStore.set (s : AuthStore) (k : String) (v : Entry) : AuthStore :=
  fun q => if q = k then some v else s q

/-- The removal `authStore.delete(state)`. -/
def AuthStore.delete (s : AuthStore) (k : String) : AuthStore :=
  fun q => if q = k then none else s q

/-- The membership test `authStore.has(state)`. -/
def AuthStore.has (s : AuthStore) (k : String) : Bool := (s k).isSome

/-- JavaScript truthiness of an optional query-string value: present and
non-empty. -/
def truthy : Option String → Bool
  | none => false
  | some v => !(v == "")

/-- Server configuration read from the environment: the client id and secret
may be absent, the callback URI defaults when unset. -/
structure Config where
  CLIENT_ID : Option String
  CLIENT_SECRET : Option String
  CALLBACK_URI : String
deriving DecidableEq, Repr

/-- The token bundle returned by the provider code exchange. -/
structure TokenData where
  access_token : Option String
  refresh_token : Option String
  id_token : Option String
  expires_in : Option Nat
deriving DecidableEq, Repr

/-- The claims of the provider tokeninfo verification response
(`email_verified` arrives as a string, as in the source). -/
structure VerifiedToken where
  aud : String
  sub : String
  email : String
  email_verified : String
  name : String
  picture : String
  given_name : String
  family_name : String
deriving DecidableEq, Repr

/-- Outcome of the outbound code-for-tokens POST: success with a token
bundle, or a thrown error whose resolved message is
`err.response.data.error_description || err.message || "Token exchange failed"`. -/
inductive ExchangeOutcome where
  | ok (d : TokenData)
  | err (message : String)
deriving DecidableEq, Repr

/-- Outcome of the outbound tokeninfo GET. -/
inductive VerifyOutcome where
  | ok (v : VerifiedToken)
  | err (message : String)
deriving DecidableEq, Repr

/-- The HTML self-closing page the callback sends, abstracted to its message,
success flag and HTTP status. -/
inductive Page where
  | page (message : String) (success : Bool) (http : Nat)
deriving DecidableEq, Repr

/-- The `user` object built from a verified token in the callback. -/
def mkUser (v : VerifiedToken) : GoogleUser :=
  { sub := v.sub, email := v.email, email_verified := v.email_verified == "true",
    name := v.name, picture := v.picture, given_name := v.given_name,
    family_name := v.family_name }

/-- Handler of `GET /auth/google/callback` from `server/index.js`, lines 98–185. The two
provider calls are supplied as outcome oracles; the handler returns the page
it renders and the updated store. -/
def callbackHandler (cfg : Config) (now : Nat) (exchange : ExchangeOutcome)
    (verify : VerifyOutcome) (s : AuthStore) (code state error : Option String) :
    Page × AuthStore :=
  if truthy error then
    match state with
    | some st =>
      if st ≠ "" ∧ s.has st = true then
        (Page.page "Authentication cancelled or failed." false 200,
         s.set st (.error (error.getD "") now))
      else
        (Page.page "Authentication cancelled or failed." false 200, s)
    | none => (Page.page "Authentication cancelled or failed." false 200, s)
  else
    match state with
    | none => (Page.page "Invalid or expired state." false 400, s)
    | some st =>
      if st ≠ "" ∧ s.has st = true then
        if truthy code then
          match exchange with
          | .err m =>
            (Page.page ("Authentication failed: " ++ m) false 200,
             s.set st (.error m now))
          | .ok td =>
            if truthy td.id_token then
              match verify with
              | .err m =>
                (Page.page ("Authentication failed: " ++ m) false 200,
                 s.set st (.error m now))
              | .ok v =>
                if cfg.CLIENT_ID ≠ some v.aud then
                  (Page.page "Authentication failed: Token audience mismatch" false 200,
                   s.set st (.error "Token audience mismatch" now))
                else
                  (Page.page "Authentication successful! You can close this window." true 200,
                   s.set st (.complete now td.access_token td.refresh_token
                     td.id_token td.expires_in (some (mkUser v))))
            else
              (Page.page "Authentication successful! You can close this window." true 200,
               s.set st (.complete now td.access_token td.refresh_token
                 td.id_token td.expires_in none))
        else
          (Page.page "No authorization code received." false 200,
           s.set st (.error "No authorization code received" now))
      else
        (Page.page "Invalid or expired state." false 400, s)

/-- The JSON body of `GET /auth/google/status/:state`, together with the 404
not-found response. -/
inductive StatusResponse where
  | notFound (http : Nat) (error : String)
  | pending
  | error (error : String)
  | complete (access_token refresh_token id_token : Option String)
      (expires_in : Option Nat) (user : Option GoogleUser)
deriving DecidableEq, Repr

/-- Handler of `GET /auth/google/status/:state` from `server/index.js`, lines 192–220:
look up the record; not found → 404; pending → pending, store untouched;
terminal → deliver the payload and delete the record. -/
def statusHandler (s : AuthStore) (st : String) : StatusResponse × AuthStore :=
  match s st with
  | none => (.notFound 404 "State not found or expired", s)
  | some (.pending _) => (.pending, s)
  | some (.error e _) => (.error e, s.delete st)
  | some (.complete _ a r i x u) => (.complete a r i x u, s.delete st)

/-- The response body the status route builds from a stored record (identity
on the record shapes). -/
def deliverPayload : Entry → StatusResponse
  | .pending _ => .pending
  | .error e _ => .error e
  | .complete _ a r i x u => .complete a r i x u

/-- The periodic cleanup tick, `server/index.js` lines 29–36: delete every
record with `now - createdAt > AUTH_TTL_MS`. The subtraction is over `Int`
because a record written after `now` must not be deleted. -/
def sweep (now : Nat) (s : AuthStore) : AuthStore :=
  fun k =>
    match s k with
    | some e => if (now : Int) - e.createdAt > (AUTH_TTL_MS : Int) then none else some e
    | none => none

/-- The Google authorization endpoint used by `start`. -/
def googleAuthBase : String := "https://accounts.google.com/o/oauth2/v2/auth"

/-- The `URLSearchParams` the start handler builds, in source order. -/
def startParams (cfg : Config) (state : String) : List (String × String) :=
  [("client_id", cfg.CLIENT_ID.getD ""),
   ("redirect_uri", cfg.CALLBACK_URI),
   ("response_type", "code"),
   ("scope", "openid email profile"),
   ("state", state),
   ("access_type", "offline"),
   ("prompt", "consent")]

/-- One hex digit, upper case. -/
def hexDigit (n : Nat) : Char :=
  if n < 10 then Char.ofNat (48 + n) else Char.ofNat (55 + n)

/-- UTF-8 bytes of a character, as numbers. -/
def utf8Bytes (c : Char) : List Nat :=
  let n := c.toNat
  if n < 0x80 then [n]
  else if n < 0x800 then
    [0xC0 ||| (n >>> 6), 0x80 ||| (n &&& 0x3F)]
  else if n < 0x10000 then
    [0xE0 ||| (n >>> 12), 0x80 ||| ((n >>> 6) &&& 0x3F), 0x80 ||| (n &&& 0x3F)]
  else
    [0xF0 ||| (n >>> 18), 0x80 ||| ((n >>> 12) &&& 0x3F),
     0x80 ||| ((n >>> 6) &&& 0x3F), 0x80 ||| (n &&& 0x3F)]

/-- Percent-escape of one byte. -/
def percentByte (b : Nat) : String :=
  "%" ++ (hexDigit (b / 16)).toString ++ (hexDigit (b % 16)).toString

/-- The `application/x-www-form-urlencoded` escaping of one character, as
`URLSearchParams` does: ASCII alphanumerics and `*-._` pass through, space
becomes `+`, everything else is percent-escaped bytewise. -/
def formEncodeChar (c : Char) : String :=
  if c.isAlphanum ∨ c = '*' ∨ c = '-' ∨ c = '.' ∨ c = '_' then c.toString
  else if c = ' ' then "+"
  else String.join ((utf8Bytes c).map percentByte)

/-- Form-urlencoding of a whole string. -/
def formEncode (v : String) : String :=
  String.join (v.toList.map formEncodeChar)

/-- The serialization `URLSearchParams.toString()`. -/
def encodeParams (ps : List (String × String)) : String :=
  String.intercalate "&" (ps.map fun p => formEncode p.1 ++ "=" ++ formEncode p.2)

/-- The JSON (or 500) response of `GET /auth/google/start`. -/
inductive StartResponse where
  | configError (http : Nat) (error : String)
  | ok (state : String) (popupUrl : String)
deriving DecidableEq, Repr

/-- Handler of `GET /auth/google/start` from `server/index.js`, lines 65–91. `newState`
stands for the fresh `crypto.randomBytes(32).toString("hex")` value. -/
def startHandler (cfg : Config) (now : Nat) (newState : String) (s : AuthStore) :
    StartResponse × AuthStore :=
  if truthy cfg.CLIENT_ID then
    (.ok newState (googleAuthBase ++ "?" ++ encodeParams (startParams cfg newState)),
     s.set newState (.pending now))
  else
    (.configError 500 "Missing GOOGLE_CLIENT_ID", s)

/-! The client-side poll controller (`startPolling` in the React app). -/

/-- The tick spacing `POLL_INTERVAL_MS` of the poll controller. -/
def POLL_INTERVAL_MS : Nat := 1000

/-- The attempt budget `MAX_POLL_ATTEMPTS` of the poll controller. -/
def MAX_POLL_ATTEMPTS : Nat := 300

/-- What one poll tick observes from `checkAuthStatus`: a status response, or
a thrown transport error (the `catch` branch). -/
inductive TickResult where
  | ok (r : StatusResponse)
  | netError
deriving DecidableEq, Repr

/-- How the controller ends: budget exhausted (timeout), a terminal
complete/error result handed to `handleAuthComplete`, `not_found` surfaced as
session expiry, or the supplied tick stream ran out while still polling. -/
inductive PollOutcome where
  | timedOut
  | surfaced (r : StatusResponse)
  | sessionExpired
  | ranOut
deriving DecidableEq, Repr

/-- A tick result that stops the poll: any status other than `pending`.
Transport errors and `pending` keep the poll running. -/
def isTerminalTick : TickResult → Bool
  | .netError => false
  | .ok .pending => false
  | .ok (.notFound _ _) => true
  | .ok (.error _) => true
  | .ok (.complete _ _ _ _ _) => true

/-- The dispatch the controller applies to a stopping status response. -/
def surfaceOf : StatusResponse → PollOutcome
  | .notFound _ _ => .sessionExpired
  | r => .surfaced r

/-- The poll loop of `startPolling`: each tick first increments the attempt
counter and times out (without issuing a status check) once it exceeds
`MAX_POLL_ATTEMPTS`; otherwise it issues a check, consuming the next entry of
the tick stream. The result pairs the outcome with the number of status
checks issued. -/
def pollLoop (count : Nat) : List TickResult → PollOutcome × Nat
  | [] =>
    if MAX_POLL_ATTEMPTS < count + 1 then (.timedOut, 0) else (.ranOut, 0)
  | t :: rest =>
    if MAX_POLL_ATTEMPTS < count + 1 then (.timedOut, 0)
    else
      match t with
      | .ok (.notFound _ _) => (.sessionExpired, 1)
      | .ok (.error e) => (.surfaced (.error e), 1)
      | .ok (.complete a r i x u) => (.surfaced (.complete a r i x u), 1)
      | .ok .pending =>
        let k := pollLoop (count + 1) rest
        (k.1, k.2 + 1)
      | .netError =>
        let k := pollLoop (count + 1) rest
        (k.1, k.2 + 1)

/-! Store lemmas shared by the claim proofs. -/

theorem AuthStore.get_set_self (s : AuthStore) (k : String) (v : Entry) :
    AuthStore.set s k v k = some v := by
  simp [AuthStore.set]

theorem AuthStore.get_set_ne (s : AuthStore) (k q : String) (v : Entry) (h : q ≠ k) :
    AuthStore.set s k v q = s q := by
  simp [AuthStore.set, h]

theorem AuthStore.get_delete_self (s : AuthStore) (k : String) :
    AuthStore.delete s k k = none := by
  simp [AuthStore.delete]

/-- Either a `set` leaves a key unchanged, or the key is the written one and
now holds the written record. -/
theorem store_write_cases (s : AuthStore) (st k : String) (e : Entry) :
    AuthStore.set s st e k = s k ∨ (st = k ∧ AuthStore.set s st e k = some e) := by
  by_cases h : k = st
  · subst h
    exact Or.inr ⟨rfl, AuthStore.get_set_self s k e⟩
  · exact Or.inl (AuthStore.get_set_ne s st k e h)

/-- The sweep acts pointwise: a stored record survives exactly when its age
does not exceed the TTL. -/
theorem sweep_get (now : Nat) (s : AuthStore) (k : String) (e : Entry)
    (h : s k = some e) :
    sweep now s k
      = if (now : Int) - e.createdAt > (AUTH_TTL_MS : Int) then none else some e := by
  simp [sweep, h]

/-- Claim C1: a status call on a terminal record returns the record's full
payload and deletes it, so a second status call with the same token returns
`not_found`; a status call on a pending record returns `pending` and leaves
the store untouched. -/
theorem status_at_most_once (s : AuthStore) (st : String) (e : Entry)
    (hget : s st = some e) :
    (e.isTerminal = true →
      (statusHandler s st).1 = deliverPayload e ∧
      ((statusHandler s st).2) st = none ∧
      statusHandler ((statusHandler s st).2) st
        = (.notFound 404 "State not found or expired", (statusHandler s st).2)) ∧
    (e.isTerminal = false → statusHandler s st = (.pending, s)) := by
  cases e with
  | pending c =>
    refine ⟨fun h => by simp [Entry.isTerminal] at h, fun _ => ?_⟩
    simp [statusHandler, hget]
  | error m c =>
    refine ⟨fun _ => ⟨?_, ?_, ?_⟩, fun h => by simp [Entry.isTerminal] at h⟩
    · simp [statusHandler, hget, deliverPayload]
    · simp [statusHandler, hget, AuthStore.get_delete_self]
    · simp [statusHandler, hget, AuthStore.delete]
  | complete c a r i x u =>
    refine ⟨fun _ => ⟨?_, ?_, ?_⟩, fun h => by simp [Entry.isTerminal] at h⟩
    · simp [statusHandler, hget, deliverPayload]
    · simp [statusHandler, hget, AuthStore.get_delete_self]
    · simp [statusHandler, hget, AuthStore.delete]

theorem status_at_most_once_witness :
    (AuthStore.set AuthStore.empty "a" (Entry.error "boom" 0)) "a"
      = some (Entry.error "boom" 0) ∧
    (Entry.error "boom" 0).isTerminal = true ∧
    statusHandler
        ((statusHandler (AuthStore.set AuthStore.empty "a" (Entry.error "boom" 0)) "a").2) "a"
      = (.notFound 404 "State not found or expired",
         (statusHandler (AuthStore.set AuthStore.empty "a" (Entry.error "boom" 0)) "a").2) :=
  ⟨by decide, by decide,
   ((status_at_most_once (AuthStore.set AuthStore.empty "a" (Entry.error "boom" 0)) "a"
      (Entry.error "boom" 0) (by decide)).1 (by decide)).2.2⟩

/-- Claim C8: a status call for a token with no record returns the 404
`not_found` response and leaves the store unchanged. -/
theorem status_unknown_not_found (s : AuthStore) (st : String) (h : s st = none) :
    statusHandler s st = (.notFound 404 "State not found or expired", s) := by
  simp [statusHandler, h]

theorem status_unknown_not_found_witness :
    statusHandler AuthStore.empty "missing"
      = (.notFound 404 "State not found or expired", AuthStore.empty) :=
  status_unknown_not_found AuthStore.empty "missing" rfl

/-- Claim C4: the sweep deletes exactly the records whose age `now - createdAt`
exceeds the 5-minute TTL and leaves every younger record unchanged; a pending
record created more than TTL ago is absent after the sweep, so status reports
`not_found`; the sweep tick interval is 60 seconds. -/
theorem sweep_ttl (now : Nat) (s : AuthStore) (k : String) (e : Entry)
    (hget : s k = some e) :
    ((now : Int) - e.createdAt > (AUTH_TTL_MS : Int) → sweep now s k = none) ∧
    ((now : Int) - e.createdAt ≤ (AUTH_TTL_MS : Int) → sweep now s k = some e) ∧
    (∀ c, e = Entry.pending c → (now : Int) - c > (AUTH_TTL_MS : Int) →
      statusHandler (sweep now s) k
        = (.notFound 404 "State not found or expired", sweep now s)) ∧
    AUTH_TTL_MS = 5 * 60 * 1000 ∧ SWEEP_INTERVAL_MS = 60 * 1000 := by
  refine ⟨?_, ?_, ?_, rfl, rfl⟩
  · intro h
    rw [sweep_get now s k e hget, if_pos h]
  · intro h
    rw [sweep_get now s k e hget, if_neg (not_lt.mpr h)]
  · intro c hc h
    subst hc
    have hnone : sweep now s k = none := by
      rw [sweep_get now s k (Entry.pending c) hget]
      simp [Entry.createdAt, h]
    simp [statusHandler, hnone]

theorem sweep_ttl_witness :
    (AuthStore.set AuthStore.empty "a" (Entry.pending 0)) "a" = some (Entry.pending 0) ∧
    ((300001 : Nat) : Int) - (Entry.pending 0).createdAt > (AUTH_TTL_MS : Int) ∧
    sweep 300001 (AuthStore.set AuthStore.empty "a" (Entry.pending 0)) "a" = none :=
  ⟨by decide, by decide,
   (sweep_ttl 300001 (AuthStore.set AuthStore.empty "a" (Entry.pending 0)) "a"
      (Entry.pending 0) (by decide)).1 (by decide)⟩

/-- Every store the callback returns is either the input store or the input
store with one terminal record, stamped with the current time, written at the
supplied state key. -/
theorem callback_snd_shape (cfg : Config) (now : Nat) (ex : ExchangeOutcome)
    (vf : VerifyOutcome) (s : AuthStore) (code state error : Option String) :
    (callbackHandler cfg now ex vf s code state error).2 = s ∨
    ∃ st e, state = some st ∧ e.isTerminal = true ∧ e.createdAt = now ∧
      (callbackHandler cfg now ex vf s code state error).2 = AuthStore.set s st e := by
  cases herr : truthy error with
  | true =>
    cases state with
    | none => left; simp [callbackHandler, herr]
    | some st =>
      by_cases hk : st ≠ "" ∧ s.has st = true
      · right
        exact ⟨st, .error (error.getD "") now, rfl, rfl, rfl,
          by simp [callbackHandler, herr, hk.1, hk.2]⟩
      · left; simp [callbackHandler, herr, hk]
  | false =>
    cases state with
    | none => left; simp [callbackHandler, herr]
    | some st =>
      by_cases hk : st ≠ "" ∧ s.has st = true
      · cases hcode : truthy code with
        | false =>
          right
          exact ⟨st, .error "No authorization code received" now, rfl, rfl, rfl,
            by simp [callbackHandler, herr, hk.1, hk.2, hcode]⟩
        | true =>
          cases ex with
          | err m =>
            right
            exact ⟨st, .error m now, rfl, rfl, rfl,
              by simp [callbackHandler, herr, hk.1, hk.2, hcode]⟩
          | ok td =>
            cases hidt : truthy td.id_token with
            | false =>
              right
              exact ⟨st, .complete now td.access_token td.refresh_token td.id_token
                  td.expires_in none, rfl, rfl, rfl,
                by simp [callbackHandler, herr, hk.1, hk.2, hcode, hidt]⟩
            | true =>
              cases vf with
              | err m =>
                right
                exact ⟨st, .error m now, rfl, rfl, rfl,
                  by simp [callbackHandler, herr, hk.1, hk.2, hcode, hidt]⟩
              | ok v =>
                by_cases haud : cfg.CLIENT_ID ≠ some v.aud
                · right
                  exact ⟨st, .error "Token audience mismatch" now, rfl, rfl, rfl,
                    by simp [callbackHandler, herr, hk.1, hk.2, hcode, hidt, haud]⟩
                · right
                  exact ⟨st, .complete now td.access_token td.refresh_token td.id_token
                      td.expires_in (some (mkUser v)), rfl, rfl, rfl,
                    by simp [callbackHandler, herr, hk.1, hk.2, hcode, hidt, haud]⟩
      · left; simp [callbackHandler, herr, hk]

/-- Claim C2 (counterexample): a record that is already terminal (`complete`)
is overwritten by a later callback invocation carrying an error for the same
state — the handler never checks that the existing record is pending, so the
claimed at-most-once terminal mutation fails. -/
theorem terminal_record_overwritten :
    (AuthStore.set AuthStore.empty "a" (Entry.complete 0 none none none none none)) "a"
      = some (Entry.complete 0 none none none none none) ∧
    (Entry.complete 0 none none none none none).isTerminal = true ∧
    (callbackHandler ⟨some "cid", some "sec", "u"⟩ 5 (.err "x") (.err "x")
        (AuthStore.set AuthStore.empty "a" (Entry.complete 0 none none none none none))
        none (some "a") (some "access_denied")).2 "a"
      = some (Entry.error "access_denied" 5) := by
  refine ⟨by decide, rfl, by decide⟩

/-- Claim C2 (amended): every store mutation the callback performs targets the
supplied state key and writes a terminal record, so a pending record only
ever transitions to `complete` or `error`; however the handler does not guard
on the current status, so a subsequent callback with the same known state can
overwrite a record that is already terminal. -/
theorem callback_store_transitions (cfg : Config) (now : Nat) (ex : ExchangeOutcome)
    (vf : VerifyOutcome) (s : AuthStore) (code state error : Option String) (k : String) :
    (callbackHandler cfg now ex vf s code state error).2 k = s k ∨
    (state = some k ∧ ∃ e, (callbackHandler cfg now ex vf s code state error).2 k = some e ∧
      e.isTerminal = true) := by
  rcases callback_snd_shape cfg now ex vf s code state error with h | ⟨st, e, hst, ht, _, hw⟩
  · left; rw [h]
  · rcases store_write_cases s st k e with h2 | ⟨heq, hv⟩
    · left; rw [hw, h2]
    · right
      refine ⟨by rw [hst, heq], e, by rw [hw, hv], ht⟩

/-- Claim C3: when the exchange succeeds but the verified id token's audience
differs from the configured client id, the callback transitions the known
pending state to `error` ("Token audience mismatch"), a subsequent status
call reports `error`, and the stored record is never a `complete` one. -/
theorem audience_mismatch_errors (cfg : Config) (now : Nat) (td : TokenData)
    (v : VerifiedToken) (s : AuthStore) (st : String) (code : Option String)
    (hst : st ≠ "") (hhas : s.has st = true) (hcode : truthy code = true)
    (hidt : truthy td.id_token = true) (haud : cfg.CLIENT_ID ≠ some v.aud) :
    (callbackHandler cfg now (.ok td) (.ok v) s code (some st) none).2 st
      = some (Entry.error "Token audience mismatch" now) ∧
    (statusHandler ((callbackHandler cfg now (.ok td) (.ok v) s code (some st) none).2) st).1
      = StatusResponse.error "Token audience mismatch" ∧
    ∀ a r i x u, (callbackHandler cfg now (.ok td) (.ok v) s code (some st) none).2 st
      ≠ some (Entry.complete now a r i x u) := by
  have herr0 : truthy (none : Option String) = false := rfl
  have hcb : (callbackHandler cfg now (.ok td) (.ok v) s code (some st) none).2
      = AuthStore.set s st (Entry.error "Token audience mismatch" now) := by
    simp [callbackHandler, herr0, hst, hhas, hcode, hidt, haud]
  refine ⟨?_, ?_, ?_⟩
  · rw [hcb]; exact AuthStore.get_set_self s st _
  · rw [hcb]; simp [statusHandler, AuthStore.get_set_self]
  · intro a r i x u
    rw [hcb, AuthStore.get_set_self]
    simp

theorem audience_mismatch_errors_witness :
    (callbackHandler ⟨some "cid", none, "u"⟩ 7 (.ok ⟨none, none, some "tok", none⟩)
        (.ok ⟨"other", "s1", "e1", "true", "n1", "p1", "g1", "f1"⟩)
        (AuthStore.set AuthStore.empty "a" (Entry.pending 0)) (some "c") (some "a") none).2 "a"
      = some (Entry.error "Token audience mismatch" 7) :=
  (audience_mismatch_errors ⟨some "cid", none, "u"⟩ 7 ⟨none, none, some "tok", none⟩
      ⟨"other", "s1", "e1", "true", "n1", "p1", "g1", "f1"⟩
      (AuthStore.set AuthStore.empty "a" (Entry.pending 0)) "a" (some "c")
      (by decide) (by decide) (by decide) (by decide) (by decide)).1

/-- Claim C7: a callback carrying a (non-empty) error query value renders the
failure page whether or not the state is known; when the state is known it
transitions the record to `error` with that cause, so the next status call
for it reports `error`; when unknown, the store is untouched. -/
theorem callback_provider_error (cfg : Config) (now : Nat) (ex : ExchangeOutcome)
    (vf : VerifyOutcome) (s : AuthStore) (code : Option String) (st errv : String)
    (hst : st ≠ "") (herr : errv ≠ "") :
    (s.has st = true →
      (callbackHandler cfg now ex vf s code (some st) (some errv)).1
        = Page.page "Authentication cancelled or failed." false 200 ∧
      (callbackHandler cfg now ex vf s code (some st) (some errv)).2 st
        = some (Entry.error errv now) ∧
      (statusHandler ((callbackHandler cfg now ex vf s code (some st) (some errv)).2) st).1
        = StatusResponse.error errv) ∧
    (s.has st = false →
      callbackHandler cfg now ex vf s code (some st) (some errv)
        = (Page.page "Authentication cancelled or failed." false 200, s)) := by
  have htr : truthy (some errv) = true := by simp [truthy, herr]
  constructor
  · intro hhas
    have hcb : callbackHandler cfg now ex vf s code (some st) (some errv)
        = (Page.page "Authentication cancelled or failed." false 200,
           AuthStore.set s st (Entry.error errv now)) := by
      simp [callbackHandler, htr, hst, hhas]
    refine ⟨by rw [hcb], ?_, ?_⟩
    · rw [hcb]; exact AuthStore.get_set_self s st _
    · rw [hcb]; simp [statusHandler, AuthStore.get_set_self]
  · intro hhas
    simp [callbackHandler, htr, hhas]

theorem callback_provider_error_witness :
    (callbackHandler ⟨some "cid", none, "u"⟩ 3 (.err "x") (.err "x")
        (AuthStore.set AuthStore.empty "a" (Entry.pending 0))
        none (some "a") (some "access_denied")).2 "a"
      = some (Entry.error "access_denied" 3) :=
  ((callback_provider_error ⟨some "cid", none, "u"⟩ 3 (.err "x") (.err "x")
      (AuthStore.set AuthStore.empty "a" (Entry.pending 0)) none "a" "access_denied"
      (by decide) (by decide)).1 (by decide)).2.1

/-- Claim C9: every record the callback writes carries `createdAt` equal to
the callback time, not the original creation time; such a record survives any
sweep within a full TTL window measured from the callback; concretely a
session started at time 0 and finalized at 299000 is still present at 599000,
beyond one TTL window from `start`. -/
theorem terminal_write_resets_createdAt (cfg : Config) (now : Nat) (ex : ExchangeOutcome)
    (vf : VerifyOutcome) (s : AuthStore) (code state error : Option String) :
    (∀ k, (callbackHandler cfg now ex vf s code state error).2 k ≠ s k →
      ∃ e, (callbackHandler cfg now ex vf s code state error).2 k = some e ∧
        e.isTerminal = true ∧ e.createdAt = now) ∧
    (∀ k e (t : Nat), (callbackHandler cfg now ex vf s code state error).2 k = some e →
      e.createdAt = now → (t : Int) - now ≤ (AUTH_TTL_MS : Int) →
      sweep t ((callbackHandler cfg now ex vf s code state error).2) k = some e) ∧
    (sweep 599000
        ((callbackHandler ⟨some "cid", some "sec", "u"⟩ 299000 (.err "x") (.err "x")
          ((startHandler ⟨some "cid", some "sec", "u"⟩ 0 "a" AuthStore.empty).2)
          none (some "a") (some "denied")).2) "a"
      = some (Entry.error "denied" 299000) ∧
    (599000 : Int) - ((0 : Nat) : Int) > (AUTH_TTL_MS : Int)) := by
  refine ⟨?_, ?_, by decide, by decide⟩
  · intro k hne
    rcases callback_snd_shape cfg now ex vf s code state error with h | ⟨st, e, _, ht, hc, hw⟩
    · exact absurd (by rw [h]) hne
    · rw [hw] at hne ⊢
      rcases store_write_cases s st k e with h2 | ⟨_, hv⟩
      · exact absurd h2 hne
      · exact ⟨e, hv, ht, hc⟩
  · intro k e t hk hc ht
    rw [sweep_get t _ k e hk, hc, if_neg (not_lt.mpr ht)]

theorem terminal_write_resets_createdAt_witness :
    sweep 600000 ((callbackHandler ⟨some "c", none, "u"⟩ 300000 (.err "x") (.err "x")
        (AuthStore.set AuthStore.empty "a" (Entry.pending 0)) none (some "a") (some "d")).2) "a"
      = some (Entry.error "d" 300000) :=
  (terminal_write_resets_createdAt ⟨some "c", none, "u"⟩ 300000 (.err "x") (.err "x")
      (AuthStore.set AuthStore.empty "a" (Entry.pending 0)) none (some "a") (some "d")).2.1
    "a" (Entry.error "d" 300000) 600000 (by decide) (by decide) (by decide)

/-- Claim C10: when the exchange succeeds without an id token in the
response, the callback's result does not depend on the verification oracle
(no verification call is made), the record transitions to `complete` with
`user = null`, and the subsequent status call reports `complete` with a null
user. -/
theorem no_id_token_complete_null_user (cfg : Config) (now : Nat) (td : TokenData)
    (s : AuthStore) (st : String) (code : Option String) (vf1 vf2 : VerifyOutcome)
    (hst : st ≠ "") (hhas : s.has st = true) (hcode : truthy code = true)
    (hidt : truthy td.id_token = false) :
    callbackHandler cfg now (.ok td) vf1 s code (some st) none
      = callbackHandler cfg now (.ok td) vf2 s code (some st) none ∧
    (callbackHandler cfg now (.ok td) vf1 s code (some st) none).2 st
      = some (Entry.complete now td.access_token td.refresh_token td.id_token
          td.expires_in none) ∧
    (statusHandler ((callbackHandler cfg now (.ok td) vf1 s code (some st) none).2) st).1
      = StatusResponse.complete td.access_token td.refresh_token td.id_token
          td.expires_in none := by
  have herr0 : truthy (none : Option String) = false := rfl
  have hcb : ∀ vf : VerifyOutcome, callbackHandler cfg now (.ok td) vf s code (some st) none
      = (Page.page "Authentication successful! You can close this window." true 200,
         AuthStore.set s st (Entry.complete now td.access_token td.refresh_token
           td.id_token td.expires_in none)) := by
    intro vf
    simp [callbackHandler, herr0, hst, hhas, hcode, hidt]
  refine ⟨(hcb vf1).trans (hcb vf2).symm, ?_, ?_⟩
  · rw [hcb vf1]; exact AuthStore.get_set_self s st _
  · rw [hcb vf1]; simp [statusHandler, AuthStore.get_set_self]

theorem no_id_token_complete_null_user_witness :
    (callbackHandler ⟨some "cid", none, "u"⟩ 9 (.ok ⟨some "AT", none, none, some 3600⟩)
        (.err "never") (AuthStore.set AuthStore.empty "a" (Entry.pending 0))
        (some "c") (some "a") none).2 "a"
      = some (Entry.complete 9 (some "AT") none none (some 3600) none) :=
  (no_id_token_complete_null_user ⟨some "cid", none, "u"⟩ 9 ⟨some "AT", none, none, some 3600⟩
      (AuthStore.set AuthStore.empty "a" (Entry.pending 0)) "a" (some "c")
      (.err "never") (.ok ⟨"cid", "s1", "e1", "true", "n1", "p1", "g1", "f1"⟩)
      (by decide) (by decide) (by decide) (by decide)).2.1

/-- Claim C5: without a configured client id, start responds 500 and leaves
the store unchanged; otherwise it inserts exactly one new pending record at
the fresh token with the current timestamp and returns the token together
with a popup URL whose query string holds exactly the protocol keys with the
required values. -/
theorem start_contract (cfg : Config) (now : Nat) (ns : String) (s : AuthStore) :
    (truthy cfg.CLIENT_ID = false →
      startHandler cfg now ns s = (.configError 500 "Missing GOOGLE_CLIENT_ID", s)) ∧
    (truthy cfg.CLIENT_ID = true →
      (startHandler cfg now ns s).1
        = .ok ns (googleAuthBase ++ "?" ++ encodeParams (startParams cfg ns)) ∧
      (∀ k, ((startHandler cfg now ns s).2) k
        = if k = ns then some (Entry.pending now) else s k) ∧
      (startParams cfg ns).map Prod.fst
        = ["client_id", "redirect_uri", "response_type", "scope", "state",
           "access_type", "prompt"] ∧
      (startParams cfg ns).lookup "client_id" = some (cfg.CLIENT_ID.getD "") ∧
      (startParams cfg ns).lookup "redirect_uri" = some cfg.CALLBACK_URI ∧
      (startParams cfg ns).lookup "response_type" = some "code" ∧
      (startParams cfg ns).lookup "scope" = some "openid email profile" ∧
      (startParams cfg ns).lookup "state" = some ns ∧
      (startParams cfg ns).lookup "access_type" = some "offline" ∧
      (startParams cfg ns).lookup "prompt" = some "consent") := by
  constructor
  · intro h
    simp [startHandler, h]
  · intro h
    refine ⟨by simp [startHandler, h], ?_, by simp [startParams],
      by simp [startParams, List.lookup], by simp [startParams, List.lookup],
      by simp [startParams, List.lookup], by simp [startParams, List.lookup],
      by simp [startParams, List.lookup], by simp [startParams, List.lookup],
      by simp [startParams, List.lookup]⟩
    intro k
    simp [startHandler, h, AuthStore.set]

theorem start_contract_witness :
    truthy (Config.CLIENT_ID ⟨some "cid", none, "cb"⟩) = true ∧
    (startHandler ⟨some "cid", none, "cb"⟩ 0 "st1" AuthStore.empty).2 "st1"
      = some (Entry.pending 0) := by
  refine ⟨by decide, ?_⟩
  have h := ((start_contract ⟨some "cid", none, "cb"⟩ 0 "st1" AuthStore.empty).2
    (by decide)).2.1 "st1"
  simpa using h

/-- The poll loop never issues more checks than the remaining attempt
budget. -/
theorem pollLoop_checks_le (resps : List TickResult) :
    ∀ count, (pollLoop count resps).2 ≤ MAX_POLL_ATTEMPTS - count := by
  induction resps with
  | nil =>
    intro count
    unfold pollLoop
    split <;> simp
  | cons t rest ih =>
    intro count
    unfold pollLoop
    by_cases h : MAX_POLL_ATTEMPTS < count + 1
    · rw [if_pos h]; simp
    · rw [if_neg h]
      have hle : count + 1 ≤ MAX_POLL_ATTEMPTS := not_lt.mp h
      have h2 := ih (count + 1)
      cases t with
      | netError => simp only []; omega
      | ok r =>
        cases r with
        | pending => simp only []; omega
        | notFound a b => simp only []; omega
        | error e => simp only []; omega
        | complete a b c d e => simp only []; omega

/-- After any run of non-stopping ticks that fits in the budget, the first
stopping tick ends the poll with its dispatched outcome, having issued one
check per consumed tick. -/
theorem pollLoop_stops_at_terminal (pre : List TickResult) :
    ∀ (count : Nat) (t : TickResult) (rest : List TickResult),
      (∀ u ∈ pre, isTerminalTick u = false) → isTerminalTick t = true →
      count + pre.length + 1 ≤ MAX_POLL_ATTEMPTS →
      ∃ r, t = TickResult.ok r ∧
        pollLoop count (pre ++ t :: rest) = (surfaceOf r, pre.length + 1) := by
  induction pre with
  | nil =>
    intro count t rest _ hterm hbud
    simp only [List.length_nil] at hbud
    cases t with
    | netError => simp [isTerminalTick] at hterm
    | ok r =>
      refine ⟨r, rfl, ?_⟩
      simp only [List.nil_append]
      unfold pollLoop
      rw [if_neg (by omega)]
      cases r with
      | pending => simp [isTerminalTick] at hterm
      | notFound a b => simp [surfaceOf]
      | error e => simp [surfaceOf]
      | complete a b c d e => simp [surfaceOf]
  | cons u pre ih =>
    intro count t rest hpre hterm hbud
    simp only [List.length_cons] at hbud
    have hu : isTerminalTick u = false := hpre u (by simp)
    obtain ⟨r, hr, hrec⟩ :=
      ih (count + 1) t rest (fun x hx => hpre x (by simp [hx])) hterm (by omega)
    refine ⟨r, hr, ?_⟩
    simp only [List.cons_append]
    unfold pollLoop
    rw [if_neg (by omega)]
    cases u with
    | netError => simp [hrec]
    | ok ru =>
      cases ru with
      | pending => simp [hrec]
      | notFound a b => simp [isTerminalTick] at hu
      | error e => simp [isTerminalTick] at hu
      | complete a b c d e => simp [isTerminalTick] at hu

/-- Claim C6: the poll controller runs at a 1-second interval with a
300-attempt budget and never issues more than 300 status checks; after any
prefix of pending results and transport errors, the first terminal response
(complete, error or not_found) stops the poll — the result is independent of
later ticks and is surfaced once, after exactly prefix-length-plus-one
checks; with a stub answering pending four times then complete, exactly five
checks are issued. -/
theorem poll_bound_and_stop :
    POLL_INTERVAL_MS = 1000 ∧ MAX_POLL_ATTEMPTS = 300 ∧
    (∀ resps : List TickResult, (pollLoop 0 resps).2 ≤ 300) ∧
    (∀ (pre : List TickResult) (t : TickResult) (rest : List TickResult),
      (∀ u ∈ pre, isTerminalTick u = false) → isTerminalTick t = true →
      pre.length + 1 ≤ MAX_POLL_ATTEMPTS →
      pollLoop 0 (pre ++ t :: rest) = pollLoop 0 (pre ++ [t]) ∧
      (∃ r, t = TickResult.ok r ∧
        pollLoop 0 (pre ++ t :: rest) = (surfaceOf r, pre.length + 1))) ∧
    pollLoop 0 (List.replicate 4 (TickResult.ok .pending)
        ++ [TickResult.ok (.complete none none none none none)])
      = (.surfaced (.complete none none none none none), 5) := by
  refine ⟨rfl, rfl, ?_, ?_, by decide⟩
  · intro resps
    have h := pollLoop_checks_le resps 0
    simpa [MAX_POLL_ATTEMPTS] using h
  · intro pre t rest hpre hterm hbud
    obtain ⟨r, hr, h1⟩ := pollLoop_stops_at_terminal pre 0 t rest hpre hterm (by omega)
    obtain ⟨r2, hr2, h2⟩ := pollLoop_stops_at_terminal pre 0 t [] hpre hterm (by omega)
    subst hr
    cases hr2
    exact ⟨h1.trans h2.symm, r, rfl, h1⟩

theorem poll_bound_and_stop_witness :
    pollLoop 0 ([TickResult.netError]
        ++ TickResult.ok (StatusResponse.error "boom") :: [TickResult.ok .pending])
      = pollLoop 0 ([TickResult.netError] ++ [TickResult.ok (StatusResponse.error "boom")]) :=
  (poll_bound_and_stop.2.2.2.1 [TickResult.netError]
    (TickResult.ok (StatusResponse.error "boom")) [TickResult.ok .pending]
    (by decide) (by decide) (by decide)).1

end GoogleSSO
